import Mathlib

/-!
Shallow embedding of `main.py`, a Flask CRUD service over two MySQL tables
(`businesses` and `reviews`).  The relational store is modelled as explicit
state (`DB`); each route handler becomes a pure function from the current
store and the parsed request to a response paired with the resulting store.
The MySQL constraints declared in `create_tables` — the foreign key
`reviews.business_id -> businesses.business_id ON DELETE CASCADE`, the
constraint `uq_user_business UNIQUE (user_id, business_id)` and the check
`ck_stars CHECK (stars BETWEEN 0 AND 5)` — are part of the store semantics.
JSON values are modelled at their declared column types (integers as `Int`,
text as `String`); `Option` on a request-body field records whether the field
was present in the JSON object, which is all `has_required_fields` inspects.
-/

namespace BusinessReviews

/-- A row of the `businesses` table (`create_tables`).  `zip_code` is stored
as `CHAR(5)` and surfaced through `int(...)` by the row mapper; it is modelled
as `Int`, exact for the numeric zip codes that conversion accepts. -/
structure Business where
  business_id : Int
  owner_id : Int
  name : String
  street_address : String
  city : String
  state : String
  zip_code : Int
deriving Repr, DecidableEq

/-- A row of the `reviews` table (`create_tables`).  `review_text` is
`NOT NULL DEFAULT ''`. -/
structure Review where
  review_id : Int
  user_id : Int
  business_id : Int
  stars : Int
  review_text : String
deriving Repr, DecidableEq

/-- The persisted store: both tables plus their `AUTO_INCREMENT` counters. -/
structure DB where
  businesses : List Business
  reviews : List Review
  nextBusinessId : Int
  nextReviewId : Int
deriving Repr, DecidableEq

/-- Primary-key invariant maintained by the store: `business_id` and
`review_id` are `AUTO_INCREMENT PRIMARY KEY` columns, hence unique within
their tables. -/
def DB.WF (db : DB) : Prop :=
  db.businesses.Pairwise (fun a b => a.business_id ≠ b.business_id) ∧
  db.reviews.Pairwise (fun a b => a.review_id ≠ b.review_id)

/-- The JSON representation of a business built by `row_to_business_dict`. -/
structure BusinessDict where
  id : Int
  owner_id : Int
  name : String
  street_address : String
  city : String
  state : String
  zip_code : Int
  self : String
deriving Repr, DecidableEq

/-- The JSON representation of a review built by `row_to_review_dict`. -/
structure ReviewDict where
  id : Int
  user_id : Int
  business : String
  stars : Int
  review_text : String
  self : String
deriving Repr, DecidableEq

/-- The query parameters carried by the `next` URL that `get_businesses`
builds with `url_for('get_businesses', offset=..., limit=...)`. -/
structure NextLink where
  offset : Int
  limit : Int
deriving Repr, DecidableEq

/-- Response bodies the service produces. -/
inductive Body where
  | empty
  | text (s : String)
  | errorMsg (msg : String)
  | business (b : BusinessDict)
  | businessPage (entries : List BusinessDict) (next : Option NextLink)
  | businessList (bs : List BusinessDict)
  | review (r : ReviewDict)
  | reviewList (rs : List ReviewDict)
deriving Repr, DecidableEq

/-- Outcome of one request: a status/body response, or an exception that
escapes the handler (Flask then renders its own error page). -/
inductive HResult where
  | resp (status : Nat) (body : Body)
  | raised
deriving Repr, DecidableEq

/-- HTTP status of a result, if the handler returned one. -/
def HResult.statusOf : HResult → Option Nat
  | .resp s _ => some s
  | .raised => none

def ERROR_BUSINESS_NOT_FOUND : Body := .errorMsg "No business with this business_id exists"

def ERROR_REVIEW_NOT_FOUND : Body := .errorMsg "No review with this review_id exists"

def MISSING_ATTRIBUTES_MSG : String :=
  "The request body is missing at least one of the required attributes"

def DUPLICATE_REVIEW_MSG : String :=
  "You have already submitted a review for this business. You can update your previous review, or delete it and submit a new review"

def INVALID_REVIEW_DATA_MSG : String := "Invalid review data"

/-- Helper `bad_request(message, status)`. -/
def bad_request (message : String) (status : Nat) : HResult :=
  .resp status (.errorMsg message)

/-- Root of the absolute URLs produced by `url_for(..., _external=True,
_scheme='https')`; the host comes from the incoming request and is fixed for
a deployment. -/
def EXTERNAL_ROOT : String := "https://localhost"

def url_for_business (business_id : Int) : String :=
  EXTERNAL_ROOT ++ "/businesses/" ++ toString business_id

def url_for_review (review_id : Int) : String :=
  EXTERNAL_ROOT ++ "/reviews/" ++ toString review_id

/-- Row mapper `row_to_business_dict`. -/
def row_to_business_dict (row : Business) : BusinessDict :=
  ⟨row.business_id, row.owner_id, row.name, row.street_address, row.city,
   row.state, row.zip_code, url_for_business row.business_id⟩

/-- Row mapper `row_to_review_dict`; `review_text` is a `NOT NULL` column, so
the `None` fallback of the source never fires. -/
def row_to_review_dict (row : Review) : ReviewDict :=
  ⟨row.review_id, row.user_id, url_for_business row.business_id, row.stars,
   row.review_text, url_for_review row.review_id⟩

/-- Parsed JSON body for business create and update; `Option` marks whether
the field is present in the object. -/
structure BusinessBody where
  owner_id : Option Int
  name : Option String
  street_address : Option String
  city : Option String
  state : Option String
  zip_code : Option Int
deriving Repr, DecidableEq

/-- Parsed JSON body for review creation. -/
structure ReviewBody where
  user_id : Option Int
  business_id : Option Int
  stars : Option Int
  review_text : Option String
deriving Repr, DecidableEq

/-- Parsed JSON body for review update; `edit_review` reads only `stars` and
`review_text`. -/
structure ReviewPutBody where
  stars : Option Int
  review_text : Option String
deriving Repr, DecidableEq

/-- Truth of `has_required_fields(content, REQUIRED_BUSINESS_FIELDS)`: did
some required field turn out missing?  (Callers use only the truthiness of
the returned field name.) -/
def has_missing_business_field (c : BusinessBody) : Bool :=
  c.owner_id.isNone || c.name.isNone || c.street_address.isNone ||
  c.city.isNone || c.state.isNone || c.zip_code.isNone

/-- Truth of `has_required_fields(content, REQUIRED_REVIEW_FIELDS)`. -/
def has_missing_review_field (c : ReviewBody) : Bool :=
  c.user_id.isNone || c.business_id.isNone || c.stars.isNone

/-- Sorting by `ORDER BY business_id` (ids are unique, so any sort agrees
with the store). -/
def sortByBusinessId (l : List Business) : List Business :=
  l.insertionSort (fun a b => a.business_id ≤ b.business_id)

/-- Sorting by `ORDER BY review_id`. -/
def sortByReviewId (l : List Review) : List Review :=
  l.insertionSort (fun a b => a.review_id ≤ b.review_id)

/-- Python slice `rows[:limit]` for an `int` limit: a nonnegative limit takes
a prefix, a negative one drops `|limit|` elements from the end
(`max(0, len(rows) + limit)` elements remain). -/
def pySlice (limit : Int) (xs : List α) : List α :=
  if 0 ≤ limit then xs.take limit.toNat
  else xs.take (xs.length - (-limit).toNat)

/-- Handler for `GET /`. -/
def index : HResult :=
  .resp 200 (.text "Please access either the /businesses or /reviews endpoint.")

/-- Handler for `POST /businesses`.  `content = none` models a request body
that `request.get_json()` cannot parse: called without `silent=True`, it
raises there, before any handler logic runs.  After the insert the source
re-reads the new row with `.one()`, which raises unless exactly one row
matches the fresh id. -/
def post_business (db : DB) (content : Option BusinessBody) : HResult × DB :=
  match content with
  | none => (.raised, db)
  | some c =>
    if has_missing_business_field c then
      (bad_request MISSING_ATTRIBUTES_MSG 400, db)
    else
      let new_id := db.nextBusinessId
      let row : Business :=
        ⟨new_id, c.owner_id.getD 0, c.name.getD "", c.street_address.getD "",
         c.city.getD "", c.state.getD "", c.zip_code.getD 0⟩
      let db' : DB := { db with businesses := db.businesses ++ [row],
                                nextBusinessId := new_id + 1 }
      match db'.businesses.filter (fun b => b.business_id == new_id) with
      | [r] => (.resp 201 (.business (row_to_business_dict r)), db')
      | _ => (.raised, db')

/-- Handler for `GET /businesses` with optional `limit` and `offset` query
parameters (absent parameters are `none`). -/
def get_businesses (db : DB) (limitParam offsetParam : Option Int) : HResult × DB :=
  let p : Int × Int :=
    match limitParam, offsetParam with
    | some l, some o => (l, o)
    | _, _ => (3, 0)
  let limit := p.1
  let fetch_limit := max 0 limit + 1
  let offset := max 0 p.2
  let rows := ((sortByBusinessId db.businesses).drop offset.toNat).take fetch_limit.toNat
  let entries := (pySlice limit rows).map row_to_business_dict
  let next : Option NextLink :=
    if limit < (rows.length : Int) then some ⟨offset + limit, limit⟩ else none
  (.resp 200 (.businessPage entries next), db)

/-- Handler for `GET /businesses/{business_id}`; `one_or_none()` raises when
more than one row matches. -/
def get_business_by_id (db : DB) (business_id : Int) : HResult × DB :=
  match db.businesses.filter (fun b => b.business_id == business_id) with
  | [] => (.resp 404 ERROR_BUSINESS_NOT_FOUND, db)
  | [row] => (.resp 200 (.business (row_to_business_dict row)), db)
  | _ => (.raised, db)

/-- Handler for `GET /owners/{owner_id}/businesses`. -/
def list_businesses_for_owner (db : DB) (owner_id : Int) : HResult × DB :=
  let rows := sortByBusinessId (db.businesses.filter (fun b => b.owner_id == owner_id))
  (.resp 200 (.businessList (rows.map row_to_business_dict)), db)

/-- Handler for `PUT /businesses/{business_id}` (full replace). -/
def edit_business (db : DB) (business_id : Int) (content : Option BusinessBody) :
    HResult × DB :=
  match content with
  | none => (.raised, db)
  | some c =>
    if has_missing_business_field c then
      (bad_request MISSING_ATTRIBUTES_MSG 400, db)
    else
      match db.businesses.filter (fun b => b.business_id == business_id) with
      | [] => (.resp 404 ERROR_BUSINESS_NOT_FOUND, db)
      | [_] =>
        let db' : DB := { db with businesses := db.businesses.map (fun b =>
          if b.business_id == business_id then
            { b with owner_id := c.owner_id.getD 0, name := c.name.getD "",
                     street_address := c.street_address.getD "",
                     city := c.city.getD "", state := c.state.getD "",
                     zip_code := c.zip_code.getD 0 }
          else b) }
        match db'.businesses.filter (fun b => b.business_id == business_id) with
        | [row] => (.resp 200 (.business (row_to_business_dict row)), db')
        | _ => (.raised, db')
      | _ => (.raised, db)

/-- Statement `DELETE FROM businesses WHERE business_id = :id` together with
the declared `ON DELETE CASCADE`: reviews referencing a deleted parent row are
removed with it.  Returns the SQL rowcount and the resulting store. -/
def sqlDeleteBusinessCascade (db : DB) (business_id : Int) : Nat × DB :=
  let deleted := db.businesses.filter (fun b => b.business_id == business_id)
  let db' : DB := { db with
    businesses := db.businesses.filter (fun b => !(b.business_id == business_id)),
    reviews := db.reviews.filter
      (fun r => !(deleted.any (fun b => b.business_id == r.business_id))) }
  (deleted.length, db')

/-- Handler for `DELETE /businesses/{business_id}`. -/
def delete_business (db : DB) (business_id : Int) : HResult × DB :=
  let res := sqlDeleteBusinessCascade db business_id
  if res.1 == 0 then (.resp 404 ERROR_BUSINESS_NOT_FOUND, res.2)
  else (.resp 204 .empty, res.2)

/-- Constraint violations an `INSERT INTO reviews` can hit. -/
inductive InsertReviewError where
  | checkViolation
  | foreignKeyViolation
  | uniqueViolation
deriving Repr, DecidableEq

/-- Statement `INSERT INTO reviews ...` under the constraints of
`create_tables`.  MySQL evaluates table `CHECK` constraints in the SQL layer
while preparing the row, before the storage engine writes it, so a `ck_stars`
violation is reported ahead of a duplicate-key error on `uq_user_business`.
The foreign-key case is unreachable through `post_reviews`, which verifies
the business first. -/
def sqlInsertReview (db : DB) (user_id business_id stars : Int)
    (review_text : String) : Except InsertReviewError (Int × DB) :=
  if !(0 ≤ stars && stars ≤ 5) then .error .checkViolation
  else if !(db.businesses.any (fun b => b.business_id == business_id)) then
    .error .foreignKeyViolation
  else if db.reviews.any (fun r => r.user_id == user_id && r.business_id == business_id) then
    .error .uniqueViolation
  else
    let new_id := db.nextReviewId
    .ok (new_id, { db with
      reviews := db.reviews ++ [⟨new_id, user_id, business_id, stars, review_text⟩],
      nextReviewId := new_id + 1 })

/-- Truth of `'uq_user_business' in msg or 'duplicate' in msg or 'unique' in
msg` over `msg = str(e.orig).lower()`: only the duplicate-key message
("Duplicate entry ... for key 'reviews.uq_user_business'") contains one of
those substrings; the `ck_stars` and foreign-key messages contain none. -/
def integrity_msg_matches_unique : InsertReviewError → Bool
  | .uniqueViolation => true
  | _ => false

/-- Handler for `POST /reviews`.  The body is parsed non-silently, so `none`
raises; the business existence check precedes the insert; `IntegrityError`
is classified by message inspection and nothing is committed on that path. -/
def post_reviews (db : DB) (content : Option ReviewBody) : HResult × DB :=
  match content with
  | none => (.raised, db)
  | some c =>
    if has_missing_review_field c then
      (bad_request MISSING_ATTRIBUTES_MSG 400, db)
    else
      match db.businesses.filter (fun b => b.business_id == c.business_id.getD 0) with
      | [] => (.resp 404 ERROR_BUSINESS_NOT_FOUND, db)
      | [_] =>
        match sqlInsertReview db (c.user_id.getD 0) (c.business_id.getD 0)
            (c.stars.getD 0) (c.review_text.getD "") with
        | .error e =>
          if integrity_msg_matches_unique e then
            (bad_request DUPLICATE_REVIEW_MSG 409, db)
          else
            (bad_request INVALID_REVIEW_DATA_MSG 400, db)
        | .ok (new_id, db') =>
          match db'.reviews.filter (fun r => r.review_id == new_id) with
          | [row] => (.resp 201 (.review (row_to_review_dict row)), db')
          | _ => (.raised, db')
      | _ => (.raised, db)

/-- Handler for `GET /reviews/{review_id}`. -/
def get_review_by_id (db : DB) (review_id : Int) : HResult × DB :=
  match db.reviews.filter (fun r => r.review_id == review_id) with
  | [] => (.resp 404 ERROR_REVIEW_NOT_FOUND, db)
  | [row] => (.resp 200 (.review (row_to_review_dict row)), db)
  | _ => (.raised, db)

/-- Handler for `GET /users/{user_id}/reviews`. -/
def list_reviews_for_user (db : DB) (user_id : Int) : HResult × DB :=
  let rows := sortByReviewId (db.reviews.filter (fun r => r.user_id == user_id))
  (.resp 200 (.reviewList (rows.map row_to_review_dict)), db)

/-- Handler for `PUT /reviews/{review_id}`.  The body is parsed with
`request.get_json(silent=True) or {}`, so an absent or unparseable body
becomes the empty object instead of raising.  The `ck_stars` check applies to
the updated row; on an `IntegrityError` the update is not committed. -/
def edit_review (db : DB) (review_id : Int) (content : Option ReviewPutBody) :
    HResult × DB :=
  let c := content.getD ⟨none, none⟩
  match c.stars with
  | none => (bad_request MISSING_ATTRIBUTES_MSG 400, db)
  | some stars =>
    match db.reviews.filter (fun r => r.review_id == review_id) with
    | [] => (.resp 404 ERROR_REVIEW_NOT_FOUND, db)
    | [_] =>
      if !(0 ≤ stars && stars ≤ 5) then
        (bad_request INVALID_REVIEW_DATA_MSG 400, db)
      else
        let db' : DB := { db with reviews := db.reviews.map (fun r =>
          if r.review_id == review_id then
            match c.review_text with
            | some t => { r with stars := stars, review_text := t }
            | none => { r with stars := stars }
          else r) }
        match db'.reviews.filter (fun r => r.review_id == review_id) with
        | [row] => (.resp 200 (.review (row_to_review_dict row)), db')
        | _ => (.raised, db')
    | _ => (.raised, db)

/-- Handler for `DELETE /reviews/{review_id}`. -/
def delete_review (db : DB) (review_id : Int) : HResult × DB :=
  let deleted := db.reviews.filter (fun r => r.review_id == review_id)
  let db' : DB := { db with reviews := db.reviews.filter (fun r => !(r.review_id == review_id)) }
  if deleted.length == 0 then (.resp 404 ERROR_REVIEW_NOT_FOUND, db')
  else (.resp 204 .empty, db')

/-- Statuses observed when the same DELETE handler is called `n` times in a
row on the same id, threading the store through the calls. -/
def repeatDelete (step : DB → Int → HResult × DB) : Nat → DB → Int → List HResult
  | 0, _, _ => []
  | Nat.succ n, db, i =>
    let r := step db i
    r.1 :: repeatDelete step n r.2 i

/-- Does a result carry a 2xx status? -/
def is2xx : HResult → Bool
  | .resp s _ => 200 ≤ s && s < 300
  | .raised => false

/-- Entries of a `GET /businesses` page response. -/
def pageEntries : HResult → List BusinessDict
  | .resp _ (.businessPage e _) => e
  | _ => []

/-- Next link of a `GET /businesses` page response. -/
def pageNext : HResult → Option NextLink
  | .resp _ (.businessPage _ n) => n
  | _ => none

/-- Does a result carry one of the client-error statuses 400, 404 or 409? -/
def isClientError (h : HResult) : Bool :=
  h.statusOf == some 400 || h.statusOf == some 404 || h.statusOf == some 409

def sampleBusiness : Business := ⟨1, 10, "n", "a", "c", "OR", 97330⟩

def sampleReview : Review := ⟨1, 1, 1, 3, "t"⟩

/-- A store holding one business (id 1) and one review of it (id 1, by user 1). -/
def db0 : DB := ⟨[sampleBusiness], [sampleReview], 2, 2⟩

/-- The empty store. -/
def dbE : DB := ⟨[], [], 1, 1⟩

/-- A store holding four businesses and no reviews. -/
def db4 : DB :=
  ⟨[⟨1, 10, "a", "s", "c", "OR", 1⟩, ⟨2, 10, "b", "s", "c", "OR", 2⟩,
    ⟨3, 10, "c", "s", "c", "OR", 3⟩, ⟨4, 10, "d", "s", "c", "OR", 4⟩], [], 5, 1⟩

theorem db0_wf : db0.WF := by unfold DB.WF db0; decide

theorem filter_key_unique {α : Type} (key : α → Int) (l : List α)
    (h : l.Pairwise (fun a b => key a ≠ key b)) (x : α) (hx : x ∈ l) :
    l.filter (fun b => key b == key x) = [x] := by
  induction l with
  | nil => cases hx
  | cons a t ih =>
    rcases List.pairwise_cons.mp h with ⟨ha, ht⟩
    rcases List.mem_cons.mp hx with rfl | hxt
    · simp only [List.filter_cons, beq_self_eq_true, if_pos]
      have hnil : t.filter (fun b => key b == key x) = [] := by
        refine List.filter_eq_nil_iff.mpr ?_
        intro b hb
        simp only [beq_iff_eq]
        exact fun e => (ha b hb) e.symm
      simp [hnil]
    · have hne : (key a == key x) = false := by simp [ha x hxt]
      simp [List.filter_cons, hne, ih ht hxt]

theorem key_eq_of_pairwise {α : Type} (key : α → Int) {l : List α}
    (h : l.Pairwise (fun a b => key a ≠ key b)) {a c : α}
    (ha : a ∈ l) (hc : c ∈ l) (hk : key c = key a) : c = a := by
  have hf := filter_key_unique key l h a ha
  have hcf : c ∈ l.filter (fun b => key b == key a) :=
    List.mem_filter.mpr ⟨hc, by simp [hk]⟩
  rw [hf] at hcf
  simpa using hcf

theorem pySlice_neg_short {α : Type} (l : Int) (hl : l < 0) (xs : List α)
    (hlen : xs.length ≤ 1) : pySlice l xs = [] := by
  unfold pySlice
  rw [if_neg (by omega)]
  have h0 : xs.length - (-l).toNat = 0 := by omega
  simp [h0]

/-- C10: a PUT /reviews/{id} request whose body is absent or not parseable as
JSON is treated as the empty object and answered with the 400
missing-required-attribute response instead of raising; the business POST and
PUT handlers (and review POST) parse the body non-silently, so the same body
raises there before any handler logic runs. -/
theorem claim_C10_silent_json_parse (db : DB) (rid bid : Int) :
    edit_review db rid none = (.resp 400 (.errorMsg MISSING_ATTRIBUTES_MSG), db) ∧
    post_business db none = (.raised, db) ∧
    edit_business db bid none = (.raised, db) ∧
    post_reviews db none = (.raised, db) :=
  ⟨rfl, rfl, rfl, rfl⟩

/-- C3: a POST /reviews request carrying user_id, business_id and stars whose
business_id matches no stored business is answered 404 with the fixed
business-not-found body — the existence check precedes the insert, so this
holds for every stars value (never 400 or 500) — and the store is unchanged. -/
theorem claim_C3_missing_business_404 (db : DB) (c : ReviewBody)
    (hu : c.user_id.isSome = true) (hb : c.business_id.isSome = true)
    (hs : c.stars.isSome = true)
    (hnone : ∀ x ∈ db.businesses, x.business_id ≠ c.business_id.getD 0) :
    post_reviews db (some c) = (.resp 404 ERROR_BUSINESS_NOT_FOUND, db) := by
  obtain ⟨u, hu'⟩ := Option.isSome_iff_exists.mp hu
  obtain ⟨bv, hb'⟩ := Option.isSome_iff_exists.mp hb
  obtain ⟨s, hs'⟩ := Option.isSome_iff_exists.mp hs
  have hmiss : has_missing_review_field c = false := by
    simp [has_missing_review_field, hu', hb', hs']
  have hfil : db.businesses.filter (fun x => x.business_id == c.business_id.getD 0) = [] := by
    refine List.filter_eq_nil_iff.mpr ?_
    intro x hx
    simpa using hnone x hx
  simp [post_reviews, hmiss, hfil]

/-- C3 witness: on the one-business store, posting a review for business 99
(with stars even out of range) yields the fixed 404 and no change. -/
theorem claim_C3_missing_business_404_witness :
    post_reviews db0 (some ⟨some 1, some 99, some 9, none⟩) =
      (.resp 404 ERROR_BUSINESS_NOT_FOUND, db0) :=
  claim_C3_missing_business_404 db0 ⟨some 1, some 99, some 9, none⟩
    (by decide) (by decide) (by decide) (by decide)

/-- C1: DELETE /businesses/{b} answers 204 with an empty body exactly when a
business row with id b existed (otherwise 404 with the fixed body), and after
a 204 every review that referenced b is gone from the store: a subsequent
GET /reviews/{r} for any review r that referenced b answers 404. -/
theorem claim_C1_delete_business_cascades (db : DB) (b : Int) (hwf : db.WF) :
    ((delete_business db b).1 =
      if db.businesses.any (fun x => x.business_id == b) then .resp 204 .empty
      else .resp 404 ERROR_BUSINESS_NOT_FOUND) ∧
    ((delete_business db b).1 = .resp 204 .empty →
      ∀ rev ∈ db.reviews, rev.business_id = b →
        (get_review_by_id (delete_business db b).2 rev.review_id).1 =
          .resp 404 ERROR_REVIEW_NOT_FOUND) := by
  constructor
  · by_cases h : db.businesses.filter (fun x => x.business_id == b) = []
    · have hany : db.businesses.any (fun x => x.business_id == b) = false := by
        rw [List.any_eq_false]
        intro x hx
        exact List.filter_eq_nil_iff.mp h x hx
      simp [delete_business, sqlDeleteBusinessCascade, h, hany]
    · have hlen : ((db.businesses.filter (fun x => x.business_id == b)).length == 0) = false := by
        simpa [List.length_eq_zero] using h
      have hany : db.businesses.any (fun x => x.business_id == b) = true := by
        rw [List.any_eq_true]
        rcases List.exists_mem_of_ne_nil _ h with ⟨x, hx⟩
        exact ⟨x, List.mem_of_mem_filter hx, (List.mem_filter.mp hx).2⟩
      simp [delete_business, sqlDeleteBusinessCascade, hany, hlen]
  · intro h204 rev hrev hb
    by_cases h : db.businesses.filter (fun x => x.business_id == b) = []
    · simp [delete_business, sqlDeleteBusinessCascade, h] at h204
    · rcases List.exists_mem_of_ne_nil _ h with ⟨x0, hx0⟩
      have hx0b : x0.business_id = b := by
        simpa using (List.mem_filter.mp hx0).2
      have hsnd : (delete_business db b).2.reviews =
          db.reviews.filter (fun r =>
            !((db.businesses.filter (fun x => x.business_id == b)).any
              (fun x => x.business_id == r.business_id))) := by
        simp only [delete_business, sqlDeleteBusinessCascade]
        split <;> rfl
      have hS : (delete_business db b).2.reviews.filter
          (fun r0 => r0.review_id == rev.review_id) = [] := by
        rw [hsnd]
        refine List.filter_eq_nil_iff.mpr ?_
        intro r hr
        rcases List.mem_filter.mp hr with ⟨hr1, hr2⟩
        simp only [beq_iff_eq]
        intro heq
        have hreq : r = rev := key_eq_of_pairwise Review.review_id hwf.2 hrev hr1 heq
        subst hreq
        rw [Bool.not_eq_true'] at hr2
        have hnone := List.any_eq_false.mp hr2 x0 hx0
        exact hnone (by simp [hx0b, hb])
      simp [get_review_by_id, hS]

/-- C1 witness: deleting business 1 of the one-business-one-review store
answers 204 and the review that referenced it then GETs as 404. -/
theorem claim_C1_delete_business_cascades_witness :
    (delete_business db0 1).1 = .resp 204 .empty ∧
    (get_review_by_id (delete_business db0 1).2 1).1 = .resp 404 ERROR_REVIEW_NOT_FOUND := by
  have h := claim_C1_delete_business_cascades db0 1 db0_wf
  have h1 : (delete_business db0 1).1 = .resp 204 .empty := by
    rw [h.1]; decide
  exact ⟨h1, h.2 h1 sampleReview (by decide) rfl⟩

/-- C2 counterexample: with business 1 stored and a review by user 1 for
business 1 already present, the POST /reviews body (user 1, business 1,
stars 9) satisfies the claim's premises, yet the response is 400 "Invalid
review data", not 409: the store raises the ck_stars CHECK violation before
the duplicate-key error, and that message matches none of the substrings the
409 classification inspects. -/
theorem claim_C2_counterexample :
    db0.businesses.any (fun x => x.business_id == 1) = true ∧
    db0.reviews.any (fun r => r.user_id == 1 && r.business_id == 1) = true ∧
    (post_reviews db0 (some ⟨some 1, some 1, some 9, none⟩)).1.statusOf ≠ some 409 ∧
    post_reviews db0 (some ⟨some 1, some 1, some 9, none⟩) =
      (.resp 400 (.errorMsg INVALID_REVIEW_DATA_MSG), db0) :=
  ⟨rfl, rfl, by decide, rfl⟩

/-- C2 amended: for every POST /reviews request whose body contains user_id,
business_id and stars, where the referenced business exists, stars lies in
the store-accepted 0–5 range, and a review with the same (user_id,
business_id) pair already exists, the response is 409 with the message
instructing the client to update or delete the existing review, and the
duplicate is not inserted (the store is unchanged). -/
theorem claim_C2_duplicate_pair_conflict (db : DB) (c : ReviewBody)
    (uid bid s : Int) (x : Business)
    (hwf : db.WF) (hx : x ∈ db.businesses) (hxid : x.business_id = bid)
    (hu : c.user_id = some uid) (hb : c.business_id = some bid)
    (hs : c.stars = some s) (hlo : 0 ≤ s) (hhi : s ≤ 5)
    (hdup : db.reviews.any (fun r => r.user_id == uid && r.business_id == bid) = true) :
    post_reviews db (some c) = (.resp 409 (.errorMsg DUPLICATE_REVIEW_MSG), db) := by
  have hmiss : has_missing_review_field c = false := by
    simp [has_missing_review_field, hu, hb, hs]
  have hfil : db.businesses.filter (fun y => y.business_id == bid) = [x] := by
    have h := filter_key_unique Business.business_id db.businesses hwf.1 x hx
    rw [hxid] at h
    exact h
  have hany : db.businesses.any (fun y => y.business_id == bid) = true := by
    rw [List.any_eq_true]
    exact ⟨x, hx, by simp [hxid]⟩
  simp [post_reviews, hmiss, hfil, sqlInsertReview, integrity_msg_matches_unique,
        hu, hb, hs, hlo, hhi, hany, hdup, bad_request]

/-- C2 witness: with valid stars, the duplicate pair on the one-review store
is answered 409 and the store is unchanged. -/
theorem claim_C2_duplicate_pair_conflict_witness :
    post_reviews db0 (some ⟨some 1, some 1, some 4, none⟩) =
      (.resp 409 (.errorMsg DUPLICATE_REVIEW_MSG), db0) :=
  claim_C2_duplicate_pair_conflict db0 ⟨some 1, some 1, some 4, none⟩ 1 1 4
    sampleBusiness db0_wf (by decide) rfl rfl rfl rfl (by decide) (by decide)
    (by decide)

/-- C7: for a POST /reviews body holding user_id, an existing business_id and
an integer stars outside 0–5, the response is 400 with the generic
invalid-data message — not 500, not 201 — and no review is created; stars 0
through 5 pass the enforced ck_stars constraint: with a fresh (user,
business) pair and a fresh auto-increment id the same request is answered
201 and the review is stored. -/
theorem claim_C7_stars_check (db : DB) (c : ReviewBody) (uid bid s : Int)
    (hwf : db.WF) (x : Business) (hx : x ∈ db.businesses) (hxid : x.business_id = bid)
    (hu : c.user_id = some uid) (hb : c.business_id = some bid)
    (hs : c.stars = some s) :
    ((s < 0 ∨ 5 < s) →
      post_reviews db (some c) = (.resp 400 (.errorMsg INVALID_REVIEW_DATA_MSG), db)) ∧
    (0 ≤ s → s ≤ 5 →
      db.reviews.all (fun r => !(r.user_id == uid && r.business_id == bid)) = true →
      (∀ r ∈ db.reviews, r.review_id ≠ db.nextReviewId) →
      post_reviews db (some c) =
        (.resp 201 (.review (row_to_review_dict
            ⟨db.nextReviewId, uid, bid, s, c.review_text.getD ""⟩)),
         { db with
            reviews := db.reviews ++ [⟨db.nextReviewId, uid, bid, s, c.review_text.getD ""⟩],
            nextReviewId := db.nextReviewId + 1 })) := by
  have hmiss : has_missing_review_field c = false := by
    simp [has_missing_review_field, hu, hb, hs]
  have hfil : db.businesses.filter (fun y => y.business_id == bid) = [x] := by
    have h := filter_key_unique Business.business_id db.businesses hwf.1 x hx
    rw [hxid] at h
    exact h
  have hany : db.businesses.any (fun y => y.business_id == bid) = true := by
    rw [List.any_eq_true]
    exact ⟨x, hx, by simp [hxid]⟩
  constructor
  · intro hr
    have hrange : (decide (0 ≤ s) && decide (s ≤ 5)) = false := by
      rcases hr with h | h
      · simp [not_le.mpr h]
      · simp [not_le.mpr h]
    simp [post_reviews, hmiss, hfil, sqlInsertReview, integrity_msg_matches_unique,
          hu, hb, hs, hrange, bad_request]
  · intro hlo hhi hfresh hids
    have hdup : db.reviews.any (fun r => r.user_id == uid && r.business_id == bid) = false := by
      rw [List.any_eq_false]
      intro r hr
      have h2 := List.all_eq_true.mp hfresh r hr
      rw [Bool.not_eq_true'] at h2
      simp [h2]
    have hnewfil : (db.reviews ++ [(⟨db.nextReviewId, uid, bid, s, c.review_text.getD ""⟩ : Review)]).filter
        (fun r => r.review_id == db.nextReviewId) =
        [⟨db.nextReviewId, uid, bid, s, c.review_text.getD ""⟩] := by
      rw [List.filter_append]
      have h1 : db.reviews.filter (fun r => r.review_id == db.nextReviewId) = [] := by
        refine List.filter_eq_nil_iff.mpr ?_
        intro r hr
        simpa using hids r hr
      simp [h1]
    simp [post_reviews, hmiss, hfil, sqlInsertReview, hu, hb, hs, hlo, hhi,
          hany, hdup, hnewfil]

/-- C7 witness: on the one-review store, stars 9 for business 1 is answered
400 with no insert; stars 0 by a new user is answered 201 and stored. -/
theorem claim_C7_stars_check_witness :
    post_reviews db0 (some ⟨some 1, some 1, some 9, none⟩) =
      (.resp 400 (.errorMsg INVALID_REVIEW_DATA_MSG), db0) ∧
    post_reviews db0 (some ⟨some 2, some 1, some 0, none⟩) =
      (.resp 201 (.review (row_to_review_dict ⟨2, 2, 1, 0, ""⟩)),
       ⟨db0.businesses, db0.reviews ++ [⟨2, 2, 1, 0, ""⟩], 2, 3⟩) := by
  have h1 := claim_C7_stars_check db0 ⟨some 1, some 1, some 9, none⟩ 1 1 9 db0_wf
    sampleBusiness (by decide) rfl rfl rfl rfl
  have h2 := claim_C7_stars_check db0 ⟨some 2, some 1, some 0, none⟩ 2 1 0 db0_wf
    sampleBusiness (by decide) rfl rfl rfl rfl
  exact ⟨h1.1 (Or.inr (by decide)),
         h2.2 (by decide) (by decide) (by decide) (by decide)⟩

theorem filter_map_key (l : List Review) (f : Review → Review) (rid : Int)
    (hf : ∀ r, (f r).review_id = r.review_id) :
    (l.map f).filter (fun r => r.review_id == rid) =
      (l.filter (fun r => r.review_id == rid)).map f := by
  rw [List.filter_map]
  congr 1
  apply List.filter_congr
  intro a _
  simp [Function.comp, hf a]

/-- C4 counterexample: on the empty store, the request limit=-1, offset=0
differs from limit=0, offset=0 — the negative limit is not clamped when the
next link is computed, so a next link appears (carrying offset -1 and
limit -1) even though no rows exist. -/
theorem claim_C4_counterexample :
    (get_businesses dbE (some (-1)) (some 0)).1 ≠ (get_businesses dbE (some 0) (some 0)).1 ∧
    pageNext (get_businesses dbE (some (-1)) (some 0)).1 = some ⟨-1, -1⟩ ∧
    pageNext (get_businesses dbE (some 0) (some 0)).1 = none := by
  refine ⟨by decide, rfl, rfl⟩

/-- C4 amended: a negative offset is clamped to zero — the response is
identical to the same request with the offset replaced by zero — but a
negative limit is clamped only when computing the fetch size: the entries
returned equal those of the same request with limit 0, while the next link is
computed from the unclamped limit, so for a negative limit it is always
present and carries offset max(0,offset)+limit and the negative limit
itself. -/
theorem claim_C4_negative_params (db : DB) (l o : Int) :
    get_businesses db (some l) (some o) = get_businesses db (some l) (some (max 0 o)) ∧
    (l < 0 →
      pageEntries (get_businesses db (some l) (some o)).1 =
        pageEntries (get_businesses db (some 0) (some o)).1 ∧
      pageNext (get_businesses db (some l) (some o)).1 = some ⟨max 0 o + l, l⟩) := by
  constructor
  · have hmm : max 0 (max 0 o) = max 0 o := by omega
    simp only [get_businesses, hmm]
  · intro hl
    have hlen1 : (((sortByBusinessId db.businesses).drop (max 0 o).toNat).take
        (max 0 l + 1).toNat).length ≤ 1 := by
      have h1 : (max 0 l + 1).toNat = 1 := by omega
      rw [h1]
      exact List.length_take_le 1 _
    have hsl : pySlice l (((sortByBusinessId db.businesses).drop (max 0 o).toNat).take
        (max 0 l + 1).toNat) = [] :=
      pySlice_neg_short l hl _ hlen1
    have hnext : l < ((((sortByBusinessId db.businesses).drop (max 0 o).toNat).take
        (max 0 l + 1).toNat).length : Int) :=
      lt_of_lt_of_le hl (Int.natCast_nonneg _)
    have hsl0 : pySlice (0 : Int) (((sortByBusinessId db.businesses).drop (max 0 o).toNat).take
        (max 0 (0 : Int) + 1).toNat) = [] := by
      unfold pySlice
      rw [if_pos le_rfl]
      simp
    constructor
    · simp only [get_businesses, pageEntries, hsl, hsl0, List.map_nil]
    · simp only [get_businesses, pageNext]
      rw [if_pos hnext]

/-- C4 witness: with a negative offset the response equals the offset-0
response, and a negative limit yields a next link carrying the unclamped
values. -/
theorem claim_C4_negative_params_witness :
    get_businesses db0 (some (-1)) (some (-2)) =
      get_businesses db0 (some (-1)) (some (max 0 (-2))) ∧
    pageNext (get_businesses db0 (some (-1)) (some (-2))).1 = some ⟨max 0 (-2) + (-1), -1⟩ := by
  have h := claim_C4_negative_params db0 (-1) (-2)
  exact ⟨h.1, (h.2 (by decide)).2⟩

/-- C5 counterexample: review 1 exists and the PUT body contains only stars
(value 9), yet the response is 400 "Invalid review data", not 200: the
ck_stars constraint rejects the update, and the store is unchanged. -/
theorem claim_C5_counterexample :
    db0.reviews.any (fun r => r.review_id == 1) = true ∧
    (edit_review db0 1 (some ⟨some 9, none⟩)).1.statusOf ≠ some 200 ∧
    edit_review db0 1 (some ⟨some 9, none⟩) =
      (.resp 400 (.errorMsg INVALID_REVIEW_DATA_MSG), db0) :=
  ⟨rfl, by decide, rfl⟩

theorem edit_review_success (db : DB) (rid s : Int) (r0 : Review) (ct : Option String)
    (hwf : db.WF) (hr : r0 ∈ db.reviews) (hid : r0.review_id = rid)
    (hlo : 0 ≤ s) (hhi : s ≤ 5) :
    edit_review db rid (some ⟨some s, ct⟩) =
      (.resp 200 (.review (row_to_review_dict
          ⟨rid, r0.user_id, r0.business_id, s, ct.getD r0.review_text⟩)),
       { db with reviews := db.reviews.map (fun r =>
           if r.review_id == rid then
             { r with stars := s, review_text := ct.getD r.review_text }
           else r) }) := by
  obtain ⟨rid0, uid0, bid0, s0, t0⟩ := r0
  cases hid
  have hfil : db.reviews.filter (fun r => r.review_id == rid0) =
      [⟨rid0, uid0, bid0, s0, t0⟩] :=
    filter_key_unique Review.review_id db.reviews hwf.2 _ hr
  cases ct with
  | none =>
    have hmf := filter_map_key db.reviews
      (fun r => if r.review_id == rid0 then { r with stars := s } else r) rid0
      (fun r => by dsimp only; split <;> rfl)
    rw [hfil] at hmf
    simp only [List.map_cons, List.map_nil, beq_self_eq_true, if_pos, beq_iff_eq] at hmf
    simp [edit_review, hfil, hlo, hhi, hmf]
  | some t =>
    have hmf := filter_map_key db.reviews
      (fun r => if r.review_id == rid0 then { r with stars := s, review_text := t } else r) rid0
      (fun r => by dsimp only; split <;> rfl)
    rw [hfil] at hmf
    simp only [List.map_cons, List.map_nil, beq_self_eq_true, if_pos, beq_iff_eq] at hmf
    simp [edit_review, hfil, hlo, hhi, hmf]

/-- C5 amended: for every existing review r and PUT /reviews/{r} body that
carries stars with a value the ck_stars constraint accepts (0–5) and no
review_text, the response is 200, r's stars become the submitted value while
its review_text, user_id and business_id are unchanged (observed both in the
response and by a subsequent GET), other reviews are untouched, and when
review_text is present exactly stars and review_text are overwritten. -/
theorem claim_C5_update_frame (db : DB) (rid s : Int) (r0 : Review)
    (hwf : db.WF) (hr : r0 ∈ db.reviews) (hid : r0.review_id = rid)
    (hlo : 0 ≤ s) (hhi : s ≤ 5) :
    (edit_review db rid (some ⟨some s, none⟩)).1 =
      .resp 200 (.review (row_to_review_dict ⟨rid, r0.user_id, r0.business_id, s, r0.review_text⟩)) ∧
    (get_review_by_id (edit_review db rid (some ⟨some s, none⟩)).2 rid).1 =
      .resp 200 (.review (row_to_review_dict ⟨rid, r0.user_id, r0.business_id, s, r0.review_text⟩)) ∧
    (∀ r1 ∈ db.reviews, r1.review_id ≠ rid →
      r1 ∈ (edit_review db rid (some ⟨some s, none⟩)).2.reviews) ∧
    (∀ t : String,
      (edit_review db rid (some ⟨some s, some t⟩)).1 =
        .resp 200 (.review (row_to_review_dict ⟨rid, r0.user_id, r0.business_id, s, t⟩))) := by
  have hmain := edit_review_success db rid s r0 none hwf hr hid hlo hhi
  refine ⟨by simp [hmain], ?_, ?_, ?_⟩
  · rw [hmain]
    have hmf := filter_map_key db.reviews
      (fun r => if r.review_id == rid then
        { r with stars := s, review_text := (none : Option String).getD r.review_text }
      else r) rid (fun r => by dsimp only; split <;> rfl)
    have hfil : db.reviews.filter (fun r => r.review_id == rid) = [r0] := by
      have h := filter_key_unique Review.review_id db.reviews hwf.2 r0 hr
      rw [hid] at h
      exact h
    rw [hfil] at hmf
    have hpos : (r0.review_id == rid) = true := by simp [hid]
    simp only [List.map_cons, List.map_nil, hpos, if_pos] at hmf
    simp only [get_review_by_id, hmf]
    obtain ⟨rid0, uid0, bid0, s0, t0⟩ := r0
    cases hid
    rfl
  · intro r1 hr1 hne
    rw [hmain]
    have : (r1.review_id == rid) = false := by simp [hne]
    exact List.mem_map.mpr ⟨r1, hr1, by simp [this]⟩
  · intro t
    simp [edit_review_success db rid s r0 (some t) hwf hr hid hlo hhi]

/-- C5 witness: updating review 1 with only stars 5 answers 200 and preserves
the stored review text; updating with stars 5 and text overwrites both. -/
theorem claim_C5_update_frame_witness :
    (edit_review db0 1 (some ⟨some 5, none⟩)).1 =
      .resp 200 (.review (row_to_review_dict ⟨1, 1, 1, 5, "t"⟩)) ∧
    (get_review_by_id (edit_review db0 1 (some ⟨some 5, none⟩)).2 1).1 =
      .resp 200 (.review (row_to_review_dict ⟨1, 1, 1, 5, "t"⟩)) ∧
    (edit_review db0 1 (some ⟨some 5, some "new"⟩)).1 =
      .resp 200 (.review (row_to_review_dict ⟨1, 1, 1, 5, "new"⟩)) := by
  have h := claim_C5_update_frame db0 1 5 sampleReview db0_wf (by decide) rfl
    (by decide) (by decide)
  exact ⟨h.1, h.2.1, h.2.2.2 "new"⟩

/-- C6: when limit or offset is absent from a GET /businesses request, both
default to limit=3 and offset=0: the response equals the limit=3, offset=0
response; the handler fetches limit+1 = 4 rows in ascending business_id
order from offset 0, returns at most 3 entries (the first three sorted
rows), and includes a next link exactly when more than 3 rows were fetched
(a 4th business exists), carrying offset 0+3 = 3 and the same limit 3. -/
theorem claim_C6_default_pagination (db : DB) (lp op : Option Int)
    (h : lp = none ∨ op = none) :
    get_businesses db lp op = get_businesses db (some 3) (some 0) ∧
    (get_businesses db lp op).1 =
      .resp 200 (.businessPage
        (((sortByBusinessId db.businesses).take 3).map row_to_business_dict)
        (if 3 < db.businesses.length then some ⟨3, 3⟩ else none)) := by
  have hdef : get_businesses db lp op = get_businesses db (some 3) (some 0) := by
    rcases h with h | h
    · subst h; cases op <;> rfl
    · subst h; cases lp <;> rfl
  refine ⟨hdef, ?_⟩
  rw [hdef]
  have h4 : (max 0 (3 : Int) + 1).toNat = 4 := by decide
  have h0 : (max 0 (0 : Int)).toNat = 0 := by decide
  have hsl : (sortByBusinessId db.businesses).length = db.businesses.length := by
    simp [sortByBusinessId, List.length_insertionSort]
  have hent : pySlice (3 : Int) ((sortByBusinessId db.businesses).take 4) =
      (sortByBusinessId db.businesses).take 3 := by
    unfold pySlice
    rw [if_pos (by norm_num)]
    have h3 : (3 : Int).toNat = 3 := rfl
    rw [h3, List.take_take]
    norm_num
  have hlen4 : ((sortByBusinessId db.businesses).take 4).length =
      min 4 (sortByBusinessId db.businesses).length := List.length_take 4 _
  by_cases hlen : 3 < db.businesses.length
  · rw [if_pos hlen]
    have hnext : (3 : Int) < ((((sortByBusinessId db.businesses).drop (max 0 (0:Int)).toNat).take
        (max 0 (3:Int) + 1).toNat).length : Int) := by
      rw [h4, h0, List.drop_zero, hlen4, hsl]
      omega
    simp only [get_businesses, pageNext]
    rw [if_pos hnext]
    rw [h4, h0, List.drop_zero, hent]
    norm_num
  · rw [if_neg hlen]
    have hnext : ¬ ((3 : Int) < ((((sortByBusinessId db.businesses).drop (max 0 (0:Int)).toNat).take
        (max 0 (3:Int) + 1).toNat).length : Int)) := by
      rw [h4, h0, List.drop_zero, hlen4, hsl]
      omega
    simp only [get_businesses, pageNext]
    rw [if_neg hnext]
    rw [h4, h0, List.drop_zero, hent]

/-- C6 witness: on the four-business store with no query parameters, the
response equals the limit=3, offset=0 response, holds the first three sorted
entries and a next link with offset 3, limit 3. -/
theorem claim_C6_default_pagination_witness :
    get_businesses db4 none none = get_businesses db4 (some 3) (some 0) ∧
    (get_businesses db4 none none).1 =
      .resp 200 (.businessPage
        (((sortByBusinessId db4.businesses).take 3).map row_to_business_dict)
        (some ⟨3, 3⟩)) := by
  have h := claim_C6_default_pagination db4 none none (Or.inl rfl)
  refine ⟨h.1, ?_⟩
  rw [h.2, if_pos (by decide)]

theorem delete_business_not_found (db : DB) (b : Int)
    (h : db.businesses.filter (fun x => x.business_id == b) = []) :
    delete_business db b = (.resp 404 ERROR_BUSINESS_NOT_FOUND, db) := by
  have h1 : db.businesses.filter (fun x => !(x.business_id == b)) = db.businesses := by
    refine List.filter_eq_self.mpr ?_
    intro x hx
    have h2 := List.filter_eq_nil_iff.mp h x hx
    simp at h2 ⊢
    exact h2
  simp [delete_business, sqlDeleteBusinessCascade, h, h1]

theorem delete_business_deleted (db : DB) (b : Int)
    (h : db.businesses.filter (fun x => x.business_id == b) ≠ []) :
    (delete_business db b).1 = .resp 204 .empty := by
  have hlen : ((db.businesses.filter (fun x => x.business_id == b)).length == 0) = false := by
    simpa [List.length_eq_zero] using h
  simp [delete_business, sqlDeleteBusinessCascade, hlen]

theorem delete_business_clears (db : DB) (b : Int) :
    (delete_business db b).2.businesses.filter (fun x => x.business_id == b) = [] := by
  have hsnd : (delete_business db b).2.businesses =
      db.businesses.filter (fun x => !(x.business_id == b)) := by
    simp only [delete_business, sqlDeleteBusinessCascade]
    split <;> rfl
  rw [hsnd]
  refine List.filter_eq_nil_iff.mpr ?_
  intro x hx
  have h2 := (List.mem_filter.mp hx).2
  simp at h2 ⊢
  exact h2

theorem delete_review_not_found (db : DB) (r : Int)
    (h : db.reviews.filter (fun x => x.review_id == r) = []) :
    delete_review db r = (.resp 404 ERROR_REVIEW_NOT_FOUND, db) := by
  have h1 : db.reviews.filter (fun x => !(x.review_id == r)) = db.reviews := by
    refine List.filter_eq_self.mpr ?_
    intro x hx
    have h2 := List.filter_eq_nil_iff.mp h x hx
    simp at h2 ⊢
    exact h2
  simp [delete_review, h, h1]

theorem delete_review_deleted (db : DB) (r : Int)
    (h : db.reviews.filter (fun x => x.review_id == r) ≠ []) :
    (delete_review db r).1 = .resp 204 .empty := by
  have hlen : ((db.reviews.filter (fun x => x.review_id == r)).length == 0) = false := by
    simpa [List.length_eq_zero] using h
  simp [delete_review, hlen]

theorem delete_review_clears (db : DB) (r : Int) :
    (delete_review db r).2.reviews.filter (fun x => x.review_id == r) = [] := by
  have hsnd : (delete_review db r).2.reviews =
      db.reviews.filter (fun x => !(x.review_id == r)) := by
    simp only [delete_review]
    split <;> rfl
  rw [hsnd]
  refine List.filter_eq_nil_iff.mpr ?_
  intro x hx
  have h2 := (List.mem_filter.mp hx).2
  simp at h2 ⊢
  exact h2

theorem repeatDelete_business_all_404 (n : Nat) : ∀ (db : DB) (b : Int),
    db.businesses.filter (fun x => x.business_id == b) = [] →
    (repeatDelete delete_business n db b).countP is2xx = 0 := by
  induction n with
  | zero => intro db b _; rfl
  | succ n ih =>
    intro db b h
    simp only [repeatDelete, delete_business_not_found db b h, List.countP_cons]
    simp [is2xx, ih db b h]

theorem repeatDelete_review_all_404 (n : Nat) : ∀ (db : DB) (r : Int),
    db.reviews.filter (fun x => x.review_id == r) = [] →
    (repeatDelete delete_review n db r).countP is2xx = 0 := by
  induction n with
  | zero => intro db r _; rfl
  | succ n ih =>
    intro db r h
    simp only [repeatDelete, delete_review_not_found db r h, List.countP_cons]
    simp [is2xx, ih db r h]

theorem repeatDelete_business_le_one (n : Nat) (db : DB) (b : Int) :
    (repeatDelete delete_business n db b).countP is2xx ≤ 1 := by
  cases n with
  | zero => simp [repeatDelete]
  | succ n =>
    simp only [repeatDelete, List.countP_cons]
    rw [repeatDelete_business_all_404 n (delete_business db b).2 b (delete_business_clears db b)]
    split <;> omega

theorem repeatDelete_review_le_one (n : Nat) (db : DB) (r : Int) :
    (repeatDelete delete_review n db r).countP is2xx ≤ 1 := by
  cases n with
  | zero => simp [repeatDelete]
  | succ n =>
    simp only [repeatDelete, List.countP_cons]
    rw [repeatDelete_review_all_404 n (delete_review db r).2 r (delete_review_clears db r)]
    split <;> omega

/-- C8: DELETE on a business or review id with no matching row answers 404
with the fixed body and leaves the store unchanged (no crash: the handler
returns normally), and over any sequence of repeated DELETE calls on the
same id, threading the store, at most one call answers a 2xx status. -/
theorem claim_C8_delete_idempotence (db : DB) (b r : Int) (n m : Nat) :
    (db.businesses.filter (fun x => x.business_id == b) = [] →
      delete_business db b = (.resp 404 ERROR_BUSINESS_NOT_FOUND, db)) ∧
    (db.reviews.filter (fun x => x.review_id == r) = [] →
      delete_review db r = (.resp 404 ERROR_REVIEW_NOT_FOUND, db)) ∧
    (repeatDelete delete_business n db b).countP is2xx ≤ 1 ∧
    (repeatDelete delete_review m db r).countP is2xx ≤ 1 :=
  ⟨delete_business_not_found db b, delete_review_not_found db r,
   repeatDelete_business_le_one n db b, repeatDelete_review_le_one m db r⟩

/-- C8 witness: deleting absent ids answers 404 unchanged, and three repeated
deletions of business 1 return at most one 2xx. -/
theorem claim_C8_delete_idempotence_witness :
    delete_business db0 7 = (.resp 404 ERROR_BUSINESS_NOT_FOUND, db0) ∧
    delete_review db0 7 = (.resp 404 ERROR_REVIEW_NOT_FOUND, db0) ∧
    (repeatDelete delete_business 3 db0 1).countP is2xx ≤ 1 := by
  have h7 := claim_C8_delete_idempotence db0 7 7 3 3
  have h1 := claim_C8_delete_idempotence db0 1 1 3 3
  exact ⟨h7.1 (by decide), h7.2.1 (by decide), h1.2.2.1⟩

/-- C9: for every handler, a response with status 400, 404 or 409 leaves the
persisted store exactly as it was before the request: validation failures and
not-found checks write nothing, and an insert or update rejected by a store
constraint is never committed; the read-only handlers never change the store
at all. -/
theorem claim_C9_error_leaves_store (db : DB) (cb : Option BusinessBody)
    (cr : Option ReviewBody) (cp : Option ReviewPutBody) (i : Int)
    (lp op : Option Int) :
    (isClientError (post_business db cb).1 = true → (post_business db cb).2 = db) ∧
    (isClientError (edit_business db i cb).1 = true → (edit_business db i cb).2 = db) ∧
    (isClientError (delete_business db i).1 = true → (delete_business db i).2 = db) ∧
    (isClientError (post_reviews db cr).1 = true → (post_reviews db cr).2 = db) ∧
    (isClientError (edit_review db i cp).1 = true → (edit_review db i cp).2 = db) ∧
    (isClientError (delete_review db i).1 = true → (delete_review db i).2 = db) ∧
    (get_businesses db lp op).2 = db ∧
    (get_business_by_id db i).2 = db ∧
    (list_businesses_for_owner db i).2 = db ∧
    (get_review_by_id db i).2 = db ∧
    (list_reviews_for_user db i).2 = db := by
  refine ⟨?_, ?_, ?_, ?_, ?_, ?_, ?_, ?_, ?_, ?_, ?_⟩
  · cases cb with
    | none => intro _; rfl
    | some c =>
      simp only [post_business]
      by_cases hm : has_missing_business_field c = true
      · rw [if_pos hm]
        intro _; rfl
      · rw [if_neg hm]
        split
        · intro h; simp [isClientError, HResult.statusOf] at h
        · intro h; simp [isClientError, HResult.statusOf] at h
  · cases cb with
    | none => intro _; rfl
    | some c =>
      simp only [edit_business]
      by_cases hm : has_missing_business_field c = true
      · rw [if_pos hm]
        intro _; rfl
      · rw [if_neg hm]
        split
        · intro _; rfl
        · split
          · intro h; simp [isClientError, HResult.statusOf] at h
          · intro h; simp [isClientError, HResult.statusOf] at h
        · intro _; rfl
  · by_cases hd : db.businesses.filter (fun x => x.business_id == i) = []
    · intro _
      rw [delete_business_not_found db i hd]
    · intro h
      rw [delete_business_deleted db i hd] at h
      simp [isClientError, HResult.statusOf] at h
  · cases cr with
    | none => intro _; rfl
    | some c =>
      simp only [post_reviews]
      by_cases hm : has_missing_review_field c = true
      · rw [if_pos hm]
        intro _; rfl
      · rw [if_neg hm]
        split
        · intro _; rfl
        · split
          · split
            · intro _; rfl
            · intro _; rfl
          · split
            · intro h; simp [isClientError, HResult.statusOf] at h
            · intro h; simp [isClientError, HResult.statusOf] at h
        · intro _; rfl
  · simp only [edit_review]
    split
    · intro _; rfl
    · split
      · intro _; rfl
      · split
        · intro _; rfl
        · split
          · intro h; simp [isClientError, HResult.statusOf] at h
          · intro h; simp [isClientError, HResult.statusOf] at h
      · intro _; rfl
  · by_cases hd : db.reviews.filter (fun x => x.review_id == i) = []
    · intro _
      rw [delete_review_not_found db i hd]
    · intro h
      rw [delete_review_deleted db i hd] at h
      simp [isClientError, HResult.statusOf] at h
  · rfl
  · simp only [get_business_by_id]
    split <;> rfl
  · rfl
  · simp only [get_review_by_id]
    split <;> rfl
  · rfl

/-- C9 witness: a business POST missing every field, a review POST with
out-of-range stars, a PUT on an absent review and a DELETE on an absent
business all leave the one-business store untouched. -/
theorem claim_C9_error_leaves_store_witness :
    (post_business db0 (some ⟨none, none, none, none, none, none⟩)).2 = db0 ∧
    (post_reviews db0 (some ⟨some 1, some 1, some 9, none⟩)).2 = db0 ∧
    (edit_review db0 5 (some ⟨some 3, none⟩)).2 = db0 ∧
    (delete_business db0 7).2 = db0 := by
  have ha := claim_C9_error_leaves_store db0 (some ⟨none, none, none, none, none, none⟩)
    (some ⟨some 1, some 1, some 9, none⟩) (some ⟨some 3, none⟩) 5 none none
  have hb := claim_C9_error_leaves_store db0 none none none 7 none none
  exact ⟨ha.1 (by decide), ha.2.2.2.1 (by decide), ha.2.2.2.2.1 (by decide),
         hb.2.2.1 (by decide)⟩
